import Mathlib

/-!
Verification of the two headers of the vk-imgui-sdl3-rendering utility
module, `src/macros.hpp` and `src/primitive_types.hpp`: the
`EXPECTED_VOID` unwrap utility, the `NOEXCEPT` alias, the `NDEBUG`
default, and the fixed-width numeric type aliases.
-/

/-- Outcome of executing a statement that may terminate the process.
`next s out` means control continues to the following statement with
program state `s` after printing `out` to standard output;
`exited s out code` means the process terminated with exit status
`code` after printing `out`, so no following statement executes. -/
inductive ExecOutcome (σ : Type) where
  | next (state : σ) (stdout : String)
  | exited (state : σ) (stdout : String) (code : Nat)
deriving DecidableEq

/-- Program state after the statement, whether control continued or the
process exited. -/
def ExecOutcome.stateOf {σ : Type} : ExecOutcome σ → σ
  | .next s _ => s
  | .exited s _ _ => s

/-- Text the statement wrote to standard output. -/
def ExecOutcome.stdoutOf {σ : Type} : ExecOutcome σ → String
  | .next _ out => out
  | .exited _ out _ => out

/-- The exit status when the statement terminated the process, `none`
when control continued. -/
def ExecOutcome.exitCode {σ : Type} : ExecOutcome σ → Option Nat
  | .next _ _ => none
  | .exited _ _ c => some c

/-- Shallow embedding of the statement expression `EXPECTED_VOID(expr)`
from src/macros.hpp lines 3-10.  The expansion evaluates `expr` once
into a `std::expected<void, std::string>` (modelled as
`Except String Unit`); if the result holds an error it prints the error
message via `std::println` (which appends a newline) and calls
`std::exit(1)`; otherwise control falls through with no output.  A
fallible operation is modelled as a state transformer
`σ → σ × Except String Unit` so that its side effects on program state
stay visible. -/
def EXPECTED_VOID {σ : Type} (expr : σ → σ × Except String Unit) (s : σ) :
    ExecOutcome σ :=
  match expr s with
  | (s1, Except.ok _) => ExecOutcome.next s1 ""
  | (s1, Except.error m) => ExecOutcome.exited s1 (m ++ "\n") 1

/-- A fallible operation with an observable side effect: it increments a
counter held in the program state and then reports the outcome `r`. -/
def counterOp (r : Except String Unit) : Nat → Nat × Except String Unit :=
  fun c => (c + 1, r)

/-- The C++ process-termination primitives relevant here. -/
inductive TerminationCall where
  | exitCall
  | quickExitCall
  | abortCall
deriving DecidableEq

/-- Observable shutdown behaviour of a termination primitive. -/
structure TerminationBehavior where
  unwindsStack : Bool
  runsAtexitHandlers : Bool
  destroysStaticObjects : Bool
deriving DecidableEq

/-- Behaviour of each termination primitive as fixed by the C++ standard
(basic.start.term, support.start.term): `std::exit` destroys objects of
static storage duration and runs the functions registered with
`std::atexit`, but does not unwind the stack (automatic objects are not
destroyed); `std::quick_exit` and `std::abort` do none of these. -/
def terminationSemantics : TerminationCall → TerminationBehavior
  | .exitCall => ⟨false, true, true⟩
  | .quickExitCall => ⟨false, false, false⟩
  | .abortCall => ⟨false, false, false⟩

/-- The termination primitive the failure path of `EXPECTED_VOID`
invokes: src/macros.hpp line 8 calls `std::exit(1)`. -/
def expectedVoidFailureCall : TerminationCall := TerminationCall.exitCall

/-- Expansion of the `NOEXCEPT` alias (src/macros.hpp lines 12-16) as a
function of whether the build defines the `NOEXCEPT_ENABLED` toggle:
under `#ifndef NOEXCEPT_ENABLED` it expands to `noexcept`, under the
`#else` branch to nothing. -/
def NOEXCEPT (toggleDefined : Bool) : String :=
  if toggleDefined then "" else "noexcept"

/-- Effect of src/macros.hpp lines 18-20 on the preprocessor definition
state of `NDEBUG` (`none` = not defined, `some t` = defined with
replacement text `t`): `#ifndef NDEBUG` / `#define NDEBUG 1` / `#endif`
defines it to `1` exactly when it was not already defined. -/
def processNDEBUG : Option String → Option String
  | none => some "1"
  | some t => some t

/-- Standard semantics of `assert` (C++ cassert.syn, C 7.2): assertions
are active exactly when `NDEBUG` is not defined, whatever its
replacement text is. -/
def assertionsEnabled : Option String → Bool
  | none => true
  | some _ => false

/-- Width in bits and signedness of a C++ integer type. -/
structure CIntegerType where
  bits : Nat
  isSigned : Bool
deriving DecidableEq

/-- `std::uint8_t` from `<cstdint>`: unsigned, exactly 8 bits. -/
def uint8_t : CIntegerType := ⟨8, false⟩

/-- `std::uint16_t` from `<cstdint>`: unsigned, exactly 16 bits. -/
def uint16_t : CIntegerType := ⟨16, false⟩

/-- `std::uint32_t` from `<cstdint>`: unsigned, exactly 32 bits. -/
def uint32_t : CIntegerType := ⟨32, false⟩

/-- `std::uint64_t` from `<cstdint>`: unsigned, exactly 64 bits. -/
def uint64_t : CIntegerType := ⟨64, false⟩

/-- `std::int8_t` from `<cstdint>`: signed, exactly 8 bits. -/
def int8_t : CIntegerType := ⟨8, true⟩

/-- `std::int16_t` from `<cstdint>`: signed, exactly 16 bits. -/
def int16_t : CIntegerType := ⟨16, true⟩

/-- `std::int32_t` from `<cstdint>`: signed, exactly 32 bits. -/
def int32_t : CIntegerType := ⟨32, true⟩

/-- `std::int64_t` from `<cstdint>`: signed, exactly 64 bits. -/
def int64_t : CIntegerType := ⟨64, true⟩

/-- src/primitive_types.hpp line 9: `using u8 = std::uint8_t;`. -/
def u8 : CIntegerType := uint8_t

/-- src/primitive_types.hpp line 10: `using u16 = std::uint16_t;`. -/
def u16 : CIntegerType := uint16_t

/-- src/primitive_types.hpp line 11: `using u32 = std::uint32_t;`. -/
def u32 : CIntegerType := uint32_t

/-- src/primitive_types.hpp line 12: `using u64 = std::uint64_t;`. -/
def u64 : CIntegerType := uint64_t

/-- src/primitive_types.hpp line 17: `using i8 = std::int8_t;`. -/
def i8 : CIntegerType := int8_t

/-- src/primitive_types.hpp line 18: `using i16 = std::int16_t;`. -/
def i16 : CIntegerType := int16_t

/-- src/primitive_types.hpp line 19: `using i32 = std::int32_t;`. -/
def i32 : CIntegerType := int32_t

/-- src/primitive_types.hpp line 20: `using i64 = std::int64_t;`. -/
def i64 : CIntegerType := int64_t

/-- A platform data model fixes the widths of the implementation-defined
types `std::size_t` and `std::ptrdiff_t`. -/
structure DataModel where
  sizeTBits : Nat
  ptrdiffTBits : Nat
deriving DecidableEq

/-- The 64-bit desktop data models (LP64 on Linux and macOS, LLP64 on
Windows) that this Vulkan/SDL3 code builds on: `size_t` and
`ptrdiff_t` are both 64 bits wide there. -/
def lp64 : DataModel := ⟨64, 64⟩

/-- The 32-bit ILP32 data model: `size_t` and `ptrdiff_t` are both 32
bits wide. -/
def ilp32 : DataModel := ⟨32, 32⟩

/-- `std::size_t`: the unsigned type of `sizeof` results; its width is
set by the platform data model. -/
def size_t (P : DataModel) : CIntegerType := ⟨P.sizeTBits, false⟩

/-- `std::ptrdiff_t`: the signed type of pointer subtraction; its width
is set by the platform data model. -/
def ptrdiff_t (P : DataModel) : CIntegerType := ⟨P.ptrdiffTBits, true⟩

/-- src/primitive_types.hpp line 26: `using usize = std::size_t;`. -/
def usize (P : DataModel) : CIntegerType := size_t P

/-- src/primitive_types.hpp line 27: `using ssize = std::ptrdiff_t;`. -/
def ssize (P : DataModel) : CIntegerType := ptrdiff_t P

/-- C1: for every fallible operation that fails with error message `m`,
`EXPECTED_VOID` writes exactly `m` followed by a newline to standard
output and terminates the process with the non-zero status 1, so
control never reaches a following statement. -/
theorem EXPECTED_VOID_failure_prints_and_exits {σ : Type}
    (op : σ → σ × Except String Unit) (s : σ) (m : String)
    (h : (op s).2 = Except.error m) :
    EXPECTED_VOID op s = ExecOutcome.exited (op s).1 (m ++ "\n") 1 ∧
      (1 : Nat) ≠ 0 := by
  refine ⟨?_, one_ne_zero⟩
  unfold EXPECTED_VOID
  rcases hop : op s with ⟨s1, r⟩
  rw [hop] at h
  simp only at h
  subst h
  rfl

/-- Witness for C1 at the concrete failing operation with message
`disk full`. -/
theorem EXPECTED_VOID_failure_prints_and_exits_witness :
    EXPECTED_VOID (fun c : Nat => (c, Except.error "disk full")) 0 =
      ExecOutcome.exited 0 ("disk full" ++ "\n") 1 ∧ (1 : Nat) ≠ 0 :=
  EXPECTED_VOID_failure_prints_and_exits
    (fun c : Nat => (c, Except.error "disk full")) 0 "disk full" rfl

/-- C2: `EXPECTED_VOID` evaluates its argument exactly once on both
paths: the resulting program state is always the state after a single
run of the operation, and in particular passing the counter-incrementing
operation bumps the counter by exactly 1 whether the operation succeeds
or fails. -/
theorem EXPECTED_VOID_evaluates_once :
    (∀ (σ : Type) (op : σ → σ × Except String Unit) (s : σ),
        (EXPECTED_VOID op s).stateOf = (op s).1) ∧
      (∀ (r : Except String Unit) (c : Nat),
        (EXPECTED_VOID (counterOp r) c).stateOf = c + 1) := by
  constructor
  · intro σ op s
    unfold EXPECTED_VOID
    rcases op s with ⟨s1, r⟩
    cases r <;> rfl
  · intro r c
    unfold EXPECTED_VOID counterOp
    cases r <;> rfl

/-- C3 counterexample: the claim says the header's default leaves the
assertions flag in the state meaning assertions are ON, but after
`processNDEBUG` runs on an undefined `NDEBUG` the standard `assert`
semantics has assertions OFF (because `NDEBUG` is then defined). -/
theorem ndebug_default_not_assertions_on :
    ¬ assertionsEnabled (processNDEBUG none) = true := by
  simp [processNDEBUG, assertionsEnabled]

/-- C3 amended: when the surrounding build did not define `NDEBUG`, the
header defines it to `1`; since a defined `NDEBUG` disables `assert`,
this is a default-OFF policy for assertions, not default-ON. -/
theorem ndebug_default_disables_assertions :
    processNDEBUG none = some "1" ∧
      assertionsEnabled (processNDEBUG none) = false := by
  constructor <;> rfl

/-- C4 counterexample: the claim says termination on the failure path
invokes no cleanup hooks (atexit-style handlers, static destructors),
but the path calls `std::exit`, which runs atexit handlers and destroys
static-storage objects. -/
theorem expectedVoid_exit_runs_cleanup_cex :
    ¬ ((terminationSemantics expectedVoidFailureCall).unwindsStack = false ∧
       (terminationSemantics expectedVoidFailureCall).runsAtexitHandlers = false ∧
       (terminationSemantics expectedVoidFailureCall).destroysStaticObjects = false) := by
  decide

/-- C4 amended: when `EXPECTED_VOID` terminates the process on a failed
operation it does so via `std::exit(1)`, so no stack unwinding occurs,
but atexit-registered handlers and static-storage destructors ARE
invoked. -/
theorem expectedVoid_exit_no_unwind_but_cleanup :
    (terminationSemantics expectedVoidFailureCall).unwindsStack = false ∧
      (terminationSemantics expectedVoidFailureCall).runsAtexitHandlers = true ∧
      (terminationSemantics expectedVoidFailureCall).destroysStaticObjects = true := by
  decide

/-- C5: when the `NOEXCEPT_ENABLED` toggle is not defined, `NOEXCEPT`
expands to the non-empty marker `noexcept`; when the toggle is defined,
it expands to nothing. -/
theorem NOEXCEPT_toggle_behavior :
    NOEXCEPT false = "noexcept" ∧ NOEXCEPT true = "" ∧
      NOEXCEPT false ≠ "" := by
  refine ⟨rfl, rfl, ?_⟩
  decide

/-- C6: if `NDEBUG` is already defined with any replacement text `v`
before the header is processed, its value is left unchanged. -/
theorem ndebug_preserves_existing_value (v : String) :
    processNDEBUG (some v) = some v := rfl

/-- C7: for every fallible operation that succeeds, `EXPECTED_VOID`
produces no output, does not terminate the process, leaves all program
state beyond the operation's own effect unchanged (the final state is
exactly the state after the single run of the operation), and control
continues to the next statement. -/
theorem EXPECTED_VOID_success_silent {σ : Type}
    (op : σ → σ × Except String Unit) (s : σ)
    (h : (op s).2 = Except.ok ()) :
    EXPECTED_VOID op s = ExecOutcome.next (op s).1 "" := by
  unfold EXPECTED_VOID
  rcases hop : op s with ⟨s1, r⟩
  rw [hop] at h
  simp only at h
  subst h
  rfl

/-- Witness for C7 at a concrete succeeding operation. -/
theorem EXPECTED_VOID_success_silent_witness :
    EXPECTED_VOID (fun c : Nat => (c + 1, Except.ok ())) 5 =
      ExecOutcome.next 6 "" :=
  EXPECTED_VOID_success_silent (fun c : Nat => (c + 1, Except.ok ())) 5 rfl

/-- C8: every fixed-width integer alias has the bit width and signedness
its name states; in particular `u64` is 64 bits (exactly 8 bytes) with
no sign. -/
theorem integer_alias_widths :
    u8.bits = 8 ∧ u8.isSigned = false ∧
      u16.bits = 16 ∧ u16.isSigned = false ∧
      u32.bits = 32 ∧ u32.isSigned = false ∧
      u64.bits = 64 ∧ u64.isSigned = false ∧ u64.bits = 8 * 8 ∧
      i8.bits = 8 ∧ i8.isSigned = true ∧
      i16.bits = 16 ∧ i16.isSigned = true ∧
      i32.bits = 32 ∧ i32.isSigned = true ∧
      i64.bits = 64 ∧ i64.isSigned = true := by
  decide

/-- C9: on the platform data models this code builds on (the 64-bit
desktop models and ILP32), the unsigned size alias `usize` and its
signed counterpart `ssize` have identical bit width, with the stated
signedness. -/
theorem size_type_widths_match :
    (usize lp64).bits = (ssize lp64).bits ∧
      (usize ilp32).bits = (ssize ilp32).bits ∧
      (usize lp64).isSigned = false ∧ (ssize lp64).isSigned = true := by
  decide

/-- C10: whenever `EXPECTED_VOID` terminates the process on a failed
operation, the exit status is exactly the fixed constant 1, for every
failing operation and message. -/
theorem EXPECTED_VOID_exit_code_one {σ : Type}
    (op : σ → σ × Except String Unit) (s : σ) (m : String)
    (h : (op s).2 = Except.error m) :
    (EXPECTED_VOID op s).exitCode = some 1 := by
  unfold EXPECTED_VOID
  rcases hop : op s with ⟨s1, r⟩
  rw [hop] at h
  simp only at h
  subst h
  rfl

/-- Witness for C10 at a concrete failing operation. -/
theorem EXPECTED_VOID_exit_code_one_witness :
    (EXPECTED_VOID (fun c : Nat => (c, Except.error "boom")) 0).exitCode =
      some 1 :=
  EXPECTED_VOID_exit_code_one
    (fun c : Nat => (c, Except.error "boom")) 0 "boom" rfl
